import Mathlib

/-!
Verification development for the sandbox-environment tool
(`tools/sandbox_env`: `models.py`, `state_manager.py`, `sandbox_manager.py`).

Python strings are modelled as lists of characters (`PyStr`); Python's
`json.load` boundary is modelled by an oracle (`StateFile`) that reports
either a parse failure (with the `JSONDecodeError` text) or the parsed
JSON document (`JValue`).  External commands (git, make), metadata
writing and the save syscall are modelled by an outcome environment
(`Env`), exactly one outcome per invocation point of the source.

Modelling notes, stated once here and referenced below:
* `str.isalnum` is modelled for ASCII text only (the Unicode categories
  CPython consults are out of scope); every string a claim exercises is
  ASCII.
* CPython dataclasses do not enforce field annotations; the model types
  the fields as annotated (`str`, `datetime`, `Path`) and rejects
  non-string JSON values where CPython would silently store them.  No
  claim exercises such a record.
* `datetime.isoformat`/`fromisoformat` are modelled for naive datetimes
  (the code only ever stores `datetime.now()`), with the subset of the
  accepted grammar that `isoformat` can produce plus the date-only and
  shortened-time forms; error message text of the parser is approximated.
* `pathlib.Path` is modelled by its normalized POSIX string form.
-/

/-- A Python `str`, as its sequence of code points. -/
abbrev PyStr := List Char

/-- Coerce a Lean string literal to the Python-string model. -/
def pystr (s : String) : PyStr := s.data

/-- Python exception values raised by the modelled code, one constructor
per exception class that appears in `exceptions.py` or the stdlib classes
the code can raise, carrying the message. -/
inductive PyErr where
  | valueError (msg : PyStr)
  | keyError (key : PyStr)
  | typeError (msg : PyStr)
  | fileNotFoundError (msg : PyStr)
  | stateFileError (msg : PyStr)
  | sandboxExistsError (msg : PyStr)
  | sandboxNotFoundError (msg : PyStr)
  | gitOperationError (msg : PyStr)
deriving DecidableEq

/-- The Python class name of an exception value: two errors are of the
same "kind" (catchable by the same `except` clause) iff these agree. -/
def PyErr.className : PyErr → PyStr
  | .valueError _ => pystr "ValueError"
  | .keyError _ => pystr "KeyError"
  | .typeError _ => pystr "TypeError"
  | .fileNotFoundError _ => pystr "FileNotFoundError"
  | .stateFileError _ => pystr "StateFileError"
  | .sandboxExistsError _ => pystr "SandboxExistsError"
  | .sandboxNotFoundError _ => pystr "SandboxNotFoundError"
  | .gitOperationError _ => pystr "GitOperationError"

/-- The message carried by an exception value. -/
def PyErr.message : PyErr → PyStr
  | .valueError m => m
  | .keyError m => m
  | .typeError m => m
  | .fileNotFoundError m => m
  | .stateFileError m => m
  | .sandboxExistsError m => m
  | .sandboxNotFoundError m => m
  | .gitOperationError m => m

/-- Substring test (Python's `in` on strings), via the tails of the
haystack. -/
def hasSub (needle hay : PyStr) : Bool :=
  hay.tails.any (fun t => needle.isPrefixOf t)

/-- Python `s.split(sep)` for a one-character separator: splits at every
occurrence, keeping empty pieces, and returns `[s]` when the separator
does not occur. -/
def splitOnChar (c : Char) : PyStr → List PyStr
  | [] => [[]]
  | x :: xs =>
    match splitOnChar c xs with
    | [] => [[]]
    | h :: t => if x = c then [] :: h :: t else (x :: h) :: t

/-- Python `s.rstrip(c)` for a one-character strip set: removes every
trailing occurrence of `c`. -/
def rstripChar (c : Char) (s : PyStr) : PyStr :=
  (s.reverse.dropWhile (fun x => x = c)).reverse

/-- The suffix `".git"` handled by `SandboxConfig.project_name`. -/
def dotGit : PyStr := pystr ".git"

/-- ASCII alphanumeric character test; models the character test of
CPython's `str.isalnum` on ASCII text (see the header note). -/
def pyCharAlnum (c : Char) : Bool := c.isAlpha || c.isDigit

/-- Python `s.isalnum()`: nonempty and every character alphanumeric. -/
def pyIsAlnum (s : PyStr) : Bool := !s.isEmpty && s.all pyCharAlnum

/-- Naive `datetime.datetime` value (the code only stores
`datetime.now()`, which carries no timezone). -/
structure PyDatetime where
  year : Nat
  month : Nat
  day : Nat
  hour : Nat
  minute : Nat
  second : Nat
  microsecond : Nat
deriving DecidableEq

/-- Leap-year test of the Gregorian calendar (CPython
`calendar.isleap`, used by the `datetime` constructor's day check). -/
def pyIsLeap (y : Nat) : Bool := y % 4 == 0 && (y % 100 != 0 || y % 400 == 0)

/-- Days in a month, as the `datetime` constructor validates them. -/
def daysInMonth (y m : Nat) : Nat :=
  if m = 2 then (if pyIsLeap y then 29 else 28)
  else if m = 4 ∨ m = 6 ∨ m = 9 ∨ m = 11 then 30
  else 31

/-- Field bounds that every CPython `datetime` object satisfies (enforced
by its constructor). -/
def PyDatetime.Wf (d : PyDatetime) : Prop :=
  1 ≤ d.year ∧ d.year ≤ 9999 ∧
  1 ≤ d.month ∧ d.month ≤ 12 ∧
  1 ≤ d.day ∧ d.day ≤ daysInMonth d.year d.month ∧
  d.hour ≤ 23 ∧ d.minute ≤ 59 ∧ d.second ≤ 59 ∧ d.microsecond ≤ 999999

instance (d : PyDatetime) : Decidable d.Wf := by
  unfold PyDatetime.Wf
  infer_instance

/-- The decimal digit character for `d` (`0 ≤ d ≤ 9`). -/
def digitChar (d : Nat) : Char := Char.ofNat (48 + d)

/-- Two-digit zero-padded decimal rendering (`"%02d"` for `n ≤ 99`). -/
def pad2 (n : Nat) : PyStr := [digitChar (n / 10), digitChar (n % 10)]

/-- Four-digit zero-padded decimal rendering (`"%04d"` for `n ≤ 9999`). -/
def pad4 (n : Nat) : PyStr :=
  [digitChar (n / 1000), digitChar (n / 100 % 10), digitChar (n / 10 % 10),
   digitChar (n % 10)]

/-- Six-digit zero-padded decimal rendering (`"%06d"` for `n ≤ 999999`). -/
def pad6 (n : Nat) : PyStr :=
  [digitChar (n / 100000), digitChar (n / 10000 % 10), digitChar (n / 1000 % 10),
   digitChar (n / 100 % 10), digitChar (n / 10 % 10), digitChar (n % 10)]

/-- `datetime.isoformat()` on a naive datetime: date `T` time, with the
`.ffffff` fraction present exactly when the microsecond is nonzero. -/
def PyDatetime.isoformat (d : PyDatetime) : PyStr :=
  pad4 d.year ++ '-' :: pad2 d.month ++ '-' :: pad2 d.day ++
  'T' :: pad2 d.hour ++ ':' :: pad2 d.minute ++ ':' :: pad2 d.second ++
  (if d.microsecond = 0 then [] else '.' :: pad6 d.microsecond)

/-- Numeric value of a decimal digit character, if it is one. -/
def digitVal (c : Char) : Option Nat :=
  if c.isDigit then some (c.toNat - 48) else none

/-- Read exactly `k` decimal digits, extending the accumulator. -/
def readDigits : Nat → Nat → PyStr → Option (Nat × PyStr)
  | 0, acc, rest => some (acc, rest)
  | _ + 1, _, [] => none
  | k + 1, acc, c :: cs =>
    match digitVal c with
    | none => none
    | some v => readDigits k (acc * 10 + v) cs

/-- Consume one expected character. -/
def expectChar (c : Char) : PyStr → Option PyStr
  | [] => none
  | x :: xs => if x = c then some xs else none

/-- Decimal value of a digit string (helper for the fraction part). -/
def natOfDigits (ds : PyStr) : Nat :=
  ds.foldl (fun a c => a * 10 + (c.toNat - 48)) 0

/-- Value in microseconds of a fractional-second digit string of one to
six digits, scaled as CPython scales it. -/
def fracVal (ds : PyStr) : Option Nat :=
  if ds.isEmpty then none
  else if !ds.all (fun c => c.isDigit) then none
  else if 6 < ds.length then none
  else some (natOfDigits ds * 10 ^ (6 - ds.length))

/-- Range validation performed by the `datetime` constructor that
`fromisoformat` builds its result with. -/
def mkChecked (y mo d h mi s us : Nat) : Option PyDatetime :=
  if 1 ≤ y ∧ y ≤ 9999 ∧ 1 ≤ mo ∧ mo ≤ 12 ∧ 1 ≤ d ∧ d ≤ daysInMonth y mo ∧
     h ≤ 23 ∧ mi ≤ 59 ∧ s ≤ 59 ∧ us ≤ 999999 then
    some ⟨y, mo, d, h, mi, s, us⟩
  else none

/-- The grammar of `datetime.fromisoformat` restricted to naive
datetimes: `YYYY-MM-DD`, optionally followed by a single separator
character and `HH`, `HH:MM`, `HH:MM:SS` or `HH:MM:SS.f{1,6}`. -/
def parseIso (s : PyStr) : Option PyDatetime :=
  match readDigits 4 0 s with
  | none => none
  | some (y, r) =>
  match expectChar '-' r with
  | none => none
  | some r =>
  match readDigits 2 0 r with
  | none => none
  | some (mo, r) =>
  match expectChar '-' r with
  | none => none
  | some r =>
  match readDigits 2 0 r with
  | none => none
  | some (d, r) =>
  match r with
  | [] => mkChecked y mo d 0 0 0 0
  | _ :: r =>
    match readDigits 2 0 r with
    | none => none
    | some (h, r) =>
    match r with
    | [] => mkChecked y mo d h 0 0 0
    | ':' :: r =>
      match readDigits 2 0 r with
      | none => none
      | some (mi, r) =>
      match r with
      | [] => mkChecked y mo d h mi 0 0
      | ':' :: r =>
        match readDigits 2 0 r with
        | none => none
        | some (sec, r) =>
        match r with
        | [] => mkChecked y mo d h mi sec 0
        | '.' :: ds =>
          match fracVal ds with
          | none => none
          | some us => mkChecked y mo d h mi sec us
        | _ => none
      | _ => none
    | _ => none

/-- `datetime.fromisoformat`: parse or raise `ValueError`. -/
def pyFromisoformat (s : PyStr) : Except PyErr PyDatetime :=
  match parseIso s with
  | some d => .ok d
  | none => .error (.valueError (pystr "Invalid isoformat string: " ++ s))

/-- Field-lexicographic datetime comparison step: compare one field pair,
falling through to `rest` on a tie. -/
def lexStep (x y : Nat) (rest : Bool) : Bool :=
  if x < y then true else if y < x then false else rest

/-- `a <= b` on datetimes (CPython compares field-lexicographically). -/
def PyDatetime.leB (a b : PyDatetime) : Bool :=
  lexStep a.year b.year <| lexStep a.month b.month <| lexStep a.day b.day <|
  lexStep a.hour b.hour <| lexStep a.minute b.minute <|
  lexStep a.second b.second <| decide (a.microsecond ≤ b.microsecond)

/-- A `pathlib.Path` value, represented by its normalized POSIX string
(the form `str(p)` returns). -/
structure PyPath where
  s : PyStr
deriving DecidableEq

/-- The string normalization `pathlib.PurePosixPath` applies on
construction: collapse slash runs, drop empty and `.` components, keep
the root (`/`, or the special POSIX `//`), render `.` for an empty
result. -/
def normalizePosix (s : PyStr) : PyStr :=
  let root : PyStr :=
    if (pystr "//").isPrefixOf s ∧ ¬ (pystr "///").isPrefixOf s then pystr "//"
    else if ['/'].isPrefixOf s then ['/']
    else []
  let comps := (splitOnChar '/' s).filter (fun p => p ≠ [] ∧ p ≠ ['.'])
  let res := root ++ List.intercalate ['/'] comps
  if res = [] then ['.'] else res

/-- `Path(s)`: construct a path from a string. -/
def pathFromStr (s : PyStr) : PyPath := ⟨normalizePosix s⟩

/-- `str(p)` for a path. -/
def PyPath.str (p : PyPath) : PyStr := p.s

/-- The `/` operator on paths (join with one string segment). -/
def PyPath.join (p : PyPath) (seg : PyStr) : PyPath :=
  if p.s ≠ [] ∧ p.s.getLast? = some '/' then pathFromStr (p.s ++ seg)
  else pathFromStr (p.s ++ '/' :: seg)

/-- A path is in normal form exactly when normalization fixes it; every
path object's string is (construction normalizes). -/
def PyPath.Wf (p : PyPath) : Prop := normalizePosix p.s = p.s

instance (p : PyPath) : Decidable p.Wf := by
  unfold PyPath.Wf
  infer_instance

/-- A parsed JSON document, as `json.load` returns it (numbers restricted
to integers; no claim input carries a fractional number). -/
inductive JValue where
  | null
  | bool (b : Bool)
  | num (n : Int)
  | str (s : PyStr)
  | arr (xs : List JValue)
  | obj (kvs : List (PyStr × JValue))

/-- Python `dict` lookup on a parsed JSON object (`d.get(k)` /
`k in d`); on duplicate keys the later entry wins, as in `json.load`. -/
def jget : List (PyStr × JValue) → PyStr → Option JValue
  | [], _ => none
  | (k', v) :: rest, k =>
    match jget rest k with
    | some r => some r
    | none => if k' = k then some v else none

/-- `d.get(k) is None`-style lookup: a JSON `null` value and a missing
key are indistinguishable (both give Python `None`). -/
def getOrNone (kvs : List (PyStr × JValue)) (k : PyStr) : Option JValue :=
  match jget kvs k with
  | some .null => none
  | r => r

/-- Python `str()` applied to a decoded JSON value (only the string case
is exercised by any claim; the remaining cases approximate `repr`). -/
def pyStrOf : JValue → PyStr
  | .str s => s
  | .null => pystr "None"
  | .bool true => pystr "True"
  | .bool false => pystr "False"
  | .num n => pystr (toString n)
  | .arr _ => pystr "<list>"
  | .obj _ => pystr "<dict>"

/-- `SandboxConfig` (`models.py`): configuration for creating a sandbox. -/
structure SandboxConfig where
  name : PyStr
  git_url : PyStr
  amplifier_repo_url : PyStr
  workspace_root : PyPath
  custom_sandbox_path : Option PyPath := none

/-- `SandboxConfig.project_name`: extract the project name from the git
URL (strip trailing slashes, strip one `.git` suffix, take the last
`/`-segment, with a `:`-splitting branch for `git@host:` URLs and a
fall-through returning the whole remainder). -/
def SandboxConfig.projectName (git_url : PyStr) : PyStr :=
  let url := rstripChar '/' git_url
  let url := if dotGit.isSuffixOf url then url.take (url.length - 4) else url
  if url.contains '/' then (splitOnChar '/' url).getLastD []
  else if url.contains ':' then
    let parts := splitOnChar ':' url
    if 2 ≤ parts.length ∧ (parts.getLastD []).contains '/' then
      (splitOnChar '/' (parts.getLastD [])).getLastD []
    else url
  else url

/-- The `project_name` property of a configuration. -/
def SandboxConfig.project_name (c : SandboxConfig) : PyStr :=
  SandboxConfig.projectName c.git_url

/-- The `branch_name` property: `BRANCH_PREFIX + name` with the constant
`"feature/"` from `config.py`. -/
def SandboxConfig.branch_name (c : SandboxConfig) : PyStr :=
  pystr "feature/" ++ c.name

/-- The `sandbox_path` property: the custom path when set, else
`workspace_root / (SANDBOX_PREFIX + name)` with the constant
`"amplifier-sandbox."` from `config.py`. -/
def SandboxConfig.sandbox_path (c : SandboxConfig) : PyPath :=
  match c.custom_sandbox_path with
  | some p => p
  | none => c.workspace_root.join (pystr "amplifier-sandbox." ++ c.name)

/-- `SandboxConfig.validate`: empty-name check, then the
replace-hyphen-and-underscore-then-`isalnum` check, then the empty-URL
check, raising `ValueError` with the source's messages. -/
def SandboxConfig.validate (c : SandboxConfig) : Except PyErr Unit :=
  if c.name = [] then
    .error (.valueError (pystr "Sandbox name cannot be empty"))
  else if pyIsAlnum ((c.name.filter (fun ch => ch ≠ '-')).filter (fun ch => ch ≠ '_')) = false then
    .error (.valueError (pystr "Sandbox name must contain only alphanumeric characters, hyphens, and underscores"))
  else if c.git_url = [] then
    .error (.valueError (pystr "Git URL cannot be empty"))
  else
    .ok ()

/-- `SandboxInfo` (`models.py`): the persisted record of one sandbox. -/
structure SandboxInfo where
  name : PyStr
  created : PyDatetime
  project_name : PyStr
  git_url : PyStr
  branch_name : PyStr
  sandbox_path : PyPath
  amplifier_commit : PyStr
deriving DecidableEq

/-- `SandboxInfo.to_dict`: the flat serialized form, keys in source
order. -/
def SandboxInfo.to_dict (i : SandboxInfo) : List (PyStr × JValue) :=
  [(pystr "name", .str i.name),
   (pystr "created", .str i.created.isoformat),
   (pystr "project_name", .str i.project_name),
   (pystr "git_url", .str i.git_url),
   (pystr "branch_name", .str i.branch_name),
   (pystr "sandbox_path", .str i.sandbox_path.str),
   (pystr "amplifier_commit", .str i.amplifier_commit)]

/-- `data[k]` restricted to string values: `KeyError` when the key is
missing; the model additionally rejects non-string values where CPython
would store them untyped (see the header note). -/
def reqStr (data : List (PyStr × JValue)) (k : PyStr) : Except PyErr PyStr :=
  match jget data k with
  | none => .error (.keyError k)
  | some (.str s) => .ok s
  | some _ => .error (.typeError (pystr "expected a string value for " ++ k))

/-- The `cls(...)` construction at the end of `SandboxInfo.from_dict`,
with the already-resolved `git_url` value; fields are read in the
source's argument order, so the first failing field decides the error. -/
def SandboxInfo.fromFields (data : List (PyStr × JValue)) (gv : JValue) :
    Except PyErr SandboxInfo := do
  let n ← reqStr data (pystr "name")
  let cs ← reqStr data (pystr "created")
  let c ← pyFromisoformat cs
  let pn ← reqStr data (pystr "project_name")
  let gu ← match gv with
    | .str s => Except.ok s
    | v => Except.ok (pyStrOf v)
  let bn ← reqStr data (pystr "branch_name")
  let sp ← reqStr data (pystr "sandbox_path")
  let ac ← reqStr data (pystr "amplifier_commit")
  return ⟨n, c, pn, gu, bn, pathFromStr sp, ac⟩

/-- `SandboxInfo.from_dict`: resolve `git_url`, falling back to the
legacy `project_path` value (passed through `str()`), raising
`ValueError` naming both fields when neither is present; then build the
record. -/
def SandboxInfo.from_dict (data : List (PyStr × JValue)) :
    Except PyErr SandboxInfo :=
  match getOrNone data (pystr "git_url") with
  | some gv => SandboxInfo.fromFields data gv
  | none =>
    match getOrNone data (pystr "project_path") with
    | none =>
      .error (.valueError
        (pystr "State file missing both 'git_url' and 'project_path' fields"))
    | some pv => SandboxInfo.fromFields data (.str (pyStrOf pv))

/-- `SandboxState` (`models.py`): the whole registry. `sandboxes` is a
Python `dict`, modelled as its insertion-ordered entry list. -/
structure SandboxState where
  version : PyStr
  sandboxes : List (PyStr × SandboxInfo)
deriving DecidableEq

/-- `SandboxState.empty`: version `"1.0"`, no sandboxes. -/
def SandboxState.empty : SandboxState := ⟨pystr "1.0", []⟩

/-- `SandboxState.to_dict`. -/
def SandboxState.to_dict (st : SandboxState) : List (PyStr × JValue) :=
  [(pystr "version", .str st.version),
   (pystr "sandboxes", .obj (st.sandboxes.map (fun p => (p.1, .obj p.2.to_dict))))]

/-- Decode the entries of the `sandboxes` object left to right; the
first failing entry decides the error. -/
def decodeEntries : List (PyStr × JValue) → Except PyErr (List (PyStr × SandboxInfo))
  | [] => .ok []
  | (k, v) :: rest =>
    match v with
    | .obj d =>
      match SandboxInfo.from_dict d with
      | .error e => .error e
      | .ok i =>
        match decodeEntries rest with
        | .error e => .error e
        | .ok t => .ok ((k, i) :: t)
    | _ => .error (.typeError (pystr "sandbox entry is not an object"))

/-- `SandboxState.from_dict`: decode the `sandboxes` mapping (defaulting
to empty when the key is absent), then read `version` with default
`"1.0"`. -/
def SandboxState.from_dict (data : List (PyStr × JValue)) :
    Except PyErr SandboxState :=
  let sbx : Except PyErr (List (PyStr × SandboxInfo)) :=
    match jget data (pystr "sandboxes") with
    | none => .ok []
    | some (.obj kvs) => decodeEntries kvs
    | some _ => .error (.typeError (pystr "sandboxes value is not an object"))
  match sbx with
  | .error e => .error e
  | .ok entries =>
    match jget data (pystr "version") with
    | none => .ok ⟨pystr "1.0", entries⟩
    | some (.str v) => .ok ⟨v, entries⟩
    | some _ => .error (.typeError (pystr "version value is not a string"))

/-- Python `k in d` on the sandboxes dict. -/
def containsKey (kvs : List (PyStr × SandboxInfo)) (k : PyStr) : Bool :=
  kvs.any (fun p => p.1 == k)

/-- Python `d[k] = v`: update in place when the key is present, append
otherwise. -/
def dictInsert (kvs : List (PyStr × SandboxInfo)) (k : PyStr) (v : SandboxInfo) :
    List (PyStr × SandboxInfo) :=
  if containsKey kvs k then
    kvs.map (fun p => if p.1 == k then (p.1, v) else p)
  else kvs ++ [(k, v)]

/-- The observable state of the registry file on disk, at the `json.load`
boundary: absent, present but not valid JSON (with the parse-error
text), or present and parsed. -/
inductive StateFile where
  | missing
  | malformed (parseErr : PyStr)
  | parsed (v : JValue)

/-- `StateManager._validate_state`: object check, `version` presence,
`sandboxes` presence, `sandboxes` mapping check, in source order, each
raising `StateFileError`. -/
def validateState (v : JValue) : Except PyErr Unit :=
  match v with
  | .obj kvs =>
    if (jget kvs (pystr "version")).isNone then
      .error (.stateFileError (pystr "State file missing 'version' field"))
    else if (jget kvs (pystr "sandboxes")).isNone then
      .error (.stateFileError (pystr "State file missing 'sandboxes' field"))
    else
      match jget kvs (pystr "sandboxes") with
      | some (.obj _) => .ok ()
      | _ => .error (.stateFileError (pystr "'sandboxes' field must be an object"))
  | _ => .error (.stateFileError (pystr "State file must be a JSON object"))

/-- `StateManager.load`: empty state when the file is missing; a JSON
parse failure becomes `StateFileError("State file is corrupt: ...")`;
otherwise validate then decode (decode errors propagate unwrapped, as in
the source, whose `except` clauses cover only `JSONDecodeError` and
`OSError`). -/
def load (f : StateFile) : Except PyErr SandboxState :=
  match f with
  | .missing => .ok SandboxState.empty
  | .malformed e => .error (.stateFileError (pystr "State file is corrupt: " ++ e))
  | .parsed v =>
    match validateState v with
    | .error e => .error e
    | .ok () =>
      match v with
      | .obj kvs => SandboxState.from_dict kvs
      | _ => .error (.stateFileError (pystr "State file must be a JSON object"))

/-- The file content `StateManager.save` persists for a state (the
atomic-write path, successful case). -/
def renderState (st : SandboxState) : StateFile := .parsed (.obj st.to_dict)

/-- `StateManager.add_sandbox`, with the save syscall's outcome supplied
by the oracle (`.error m` models the `OSError` path, which the source
wraps into `StateFileError`).  Returns the resulting file content
together with the outcome; on any failure the file is the unchanged
input. -/
def add_sandbox (f : StateFile) (saveRes : Except PyStr Unit) (info : SandboxInfo) :
    StateFile × Except PyErr Unit :=
  match load f with
  | .error e => (f, .error e)
  | .ok st =>
    if containsKey st.sandboxes info.name then
      (f, .error (.sandboxExistsError
        (pystr "Sandbox '" ++ info.name ++ pystr "' already exists")))
    else
      match saveRes with
      | .error m => (f, .error (.stateFileError m))
      | .ok () => (renderState ⟨st.version, dictInsert st.sandboxes info.name info⟩, .ok ())

/-- Stable insertion into a sorted accumulator: the new element goes
after every element that compares `le` to it. -/
def insertSorted (le : SandboxInfo → SandboxInfo → Bool) (x : SandboxInfo) :
    List SandboxInfo → List SandboxInfo
  | [] => [x]
  | y :: ys => if le y x then y :: insertSorted le x ys else x :: y :: ys

/-- Left-to-right stable sorting pass. -/
def sortAux (le : SandboxInfo → SandboxInfo → Bool) :
    List SandboxInfo → List SandboxInfo → List SandboxInfo
  | [], acc => acc
  | x :: xs, acc => sortAux le xs (insertSorted le x acc)

/-- Python's `sorted` (a stable sort; any stable sort computes the same
output for a total preorder, so insertion order of equal keys is
preserved as in CPython). -/
def pySorted (le : SandboxInfo → SandboxInfo → Bool) (l : List SandboxInfo) :
    List SandboxInfo := sortAux le l []

/-- The comparison `sorted(key=lambda s: s.created)` sorts by. -/
def createdLe (a b : SandboxInfo) : Bool := a.created.leB b.created

/-- `StateManager.list_sandboxes`: load, then the values sorted by
creation time. -/
def list_sandboxes (f : StateFile) : Except PyErr (List SandboxInfo) :=
  match load f with
  | .error e => .error e
  | .ok st => .ok (pySorted createdLe (st.sandboxes.map Prod.snd))

/-- `StateManager.sandbox_exists`. -/
def sandbox_exists (f : StateFile) (name : PyStr) : Except PyErr Bool :=
  match load f with
  | .error e => .error e
  | .ok st => .ok (containsKey st.sandboxes name)

/-- Outcomes of the external effects one `create_sandbox` run performs
(`sandbox_manager.py`): the clock, the git/make/template collaborators
and the registry save syscall.  `cloneRes .ok h` means the clone and the
follow-up `rev-parse` both succeeded, with `h` the stripped commit hash;
`.error m` carries the composed diagnostic message the failing step's
`GitOperationError` would hold.  `dirAfterFailedClone` records whether a
failing clone left the target directory behind. -/
structure Env where
  now : PyDatetime
  cloneRes : Except PyStr PyStr
  dirAfterFailedClone : Bool
  submoduleRes : Except PyStr Unit
  branchRes : Except PyStr Unit
  makeRes : Except PyStr Unit
  metadataRes : Except PyErr Unit
  saveRes : Except PyStr Unit

/-- The filesystem state `create_sandbox` observes and mutates: whether
the sandbox target directory exists, and the registry file content. -/
structure FS where
  sandboxDirExists : Bool
  stateFile : StateFile

/-- Steps 3-9 of `SandboxManager.create_sandbox` (the body of its `try`
block): clone (refusing an existing target), submodule add, feature
branch, `make install`, metadata write, then the registry commit via
`StateManager.add_sandbox`.  Returns the filesystem as left by the last
executed step, before the `except` handler runs. -/
def createSteps (c : SandboxConfig) (env : Env) (fs : FS) :
    FS × Except PyErr SandboxInfo :=
  if fs.sandboxDirExists then
    (fs, .error (.gitOperationError
      (pystr "Target directory already exists: " ++ c.sandbox_path.str)))
  else
    match env.cloneRes with
    | .error m => ({ fs with sandboxDirExists := env.dirAfterFailedClone },
                   .error (.gitOperationError m))
    | .ok commit =>
      let fs := { fs with sandboxDirExists := true }
      match env.submoduleRes with
      | .error m => (fs, .error (.gitOperationError m))
      | .ok () =>
      match env.branchRes with
      | .error m => (fs, .error (.gitOperationError m))
      | .ok () =>
      match env.makeRes with
      | .error m => (fs, .error (.gitOperationError m))
      | .ok () =>
      match env.metadataRes with
      | .error e => (fs, .error e)
      | .ok () =>
        let info : SandboxInfo :=
          { name := c.name, created := env.now, project_name := c.project_name,
            git_url := c.git_url, branch_name := c.branch_name,
            sandbox_path := c.sandbox_path, amplifier_commit := commit }
        match add_sandbox fs.stateFile env.saveRes info with
        | (f', .error e) => ({ fs with stateFile := f' }, .error e)
        | (f', .ok ()) => ({ fs with stateFile := f' }, .ok info)

/-- `SandboxManager.create_sandbox`: validate, duplicate check (both
outside the `try` block, so no cleanup on their failure), then steps 3-9
under the `except Exception` handler, which recursively deletes the
sandbox directory if it exists and re-raises the original error. -/
def create_sandbox (c : SandboxConfig) (env : Env) (fs : FS) :
    FS × Except PyErr SandboxInfo :=
  match c.validate with
  | .error e => (fs, .error e)
  | .ok () =>
  match sandbox_exists fs.stateFile c.name with
  | .error e => (fs, .error e)
  | .ok true =>
    (fs, .error (.sandboxExistsError (pystr "Sandbox '" ++ c.name ++
      pystr "' already exists. Use a different name or remove the existing sandbox first.")))
  | .ok false =>
    match createSteps c env fs with
    | (fs', .ok info) => (fs', .ok info)
    | (fs', .error e) =>
      (if fs'.sandboxDirExists then { fs' with sandboxDirExists := false } else fs',
       .error e)

/-- The error of the first failing step among steps 3-7 of
`create_sandbox` (clone, submodule add, branch, build, metadata write),
or `none` when all five succeed. -/
def firstFailure37 (c : SandboxConfig) (env : Env) (fs : FS) : Option PyErr :=
  if fs.sandboxDirExists then
    some (.gitOperationError
      (pystr "Target directory already exists: " ++ c.sandbox_path.str))
  else
    match env.cloneRes with
    | .error m => some (.gitOperationError m)
    | .ok _ =>
    match env.submoduleRes with
    | .error m => some (.gitOperationError m)
    | .ok () =>
    match env.branchRes with
    | .error m => some (.gitOperationError m)
    | .ok () =>
    match env.makeRes with
    | .error m => some (.gitOperationError m)
    | .ok () =>
    match env.metadataRes with
    | .error e => some e
    | .ok () => none

theorem digitVal_digitChar (k : Nat) (h : k ≤ 9) : digitVal (digitChar k) = some k := by
  interval_cases k <;> rfl

theorem digitChar_isDigit (k : Nat) (h : k ≤ 9) : (digitChar k).isDigit = true := by
  interval_cases k <;> rfl

theorem toNat_digitChar (k : Nat) (h : k ≤ 9) : (digitChar k).toNat = 48 + k := by
  interval_cases k <;> rfl

theorem read2_pad2 (n acc : Nat) (h : n ≤ 99) (r : PyStr) :
    readDigits 2 acc (pad2 n ++ r) = some (acc * 100 + n, r) := by
  have h1 : n / 10 ≤ 9 := by omega
  have h2 : n % 10 ≤ 9 := by omega
  simp [pad2, readDigits, digitVal_digitChar _ h1, digitVal_digitChar _ h2]
  omega

theorem read4_pad4 (n acc : Nat) (h : n ≤ 9999) (r : PyStr) :
    readDigits 4 acc (pad4 n ++ r) = some (acc * 10000 + n, r) := by
  have h1 : n / 1000 ≤ 9 := by omega
  have h2 : n / 100 % 10 ≤ 9 := by omega
  have h3 : n / 10 % 10 ≤ 9 := by omega
  have h4 : n % 10 ≤ 9 := by omega
  simp [pad4, readDigits, digitVal_digitChar _ h1, digitVal_digitChar _ h2,
        digitVal_digitChar _ h3, digitVal_digitChar _ h4]
  omega

theorem fracVal_pad6 (us : Nat) (h : us ≤ 999999) : fracVal (pad6 us) = some us := by
  have h1 : us / 100000 ≤ 9 := by omega
  have h2 : us / 10000 % 10 ≤ 9 := by omega
  have h3 : us / 1000 % 10 ≤ 9 := by omega
  have h4 : us / 100 % 10 ≤ 9 := by omega
  have h5 : us / 10 % 10 ≤ 9 := by omega
  have h6 : us % 10 ≤ 9 := by omega
  simp [fracVal, pad6, natOfDigits, digitChar_isDigit _ h1, digitChar_isDigit _ h2,
        digitChar_isDigit _ h3, digitChar_isDigit _ h4, digitChar_isDigit _ h5,
        digitChar_isDigit _ h6, toNat_digitChar _ h1, toNat_digitChar _ h2,
        toNat_digitChar _ h3, toNat_digitChar _ h4, toNat_digitChar _ h5,
        toNat_digitChar _ h6]
  omega

theorem daysInMonth_le (y m : Nat) : daysInMonth y m ≤ 31 := by
  unfold daysInMonth
  split_ifs <;> omega

theorem parseIso_isoformat (d : PyDatetime) (h : d.Wf) :
    parseIso d.isoformat = some d := by
  obtain ⟨y, mo, dy, hh, mi, sec, us⟩ := d
  dsimp only [PyDatetime.Wf] at h
  obtain ⟨w1, w2, w3, w4, w5, w6, w7, w8, w9, w10⟩ := h
  have hdy : dy ≤ 99 := by
    have := daysInMonth_le y mo
    omega
  simp only [PyDatetime.isoformat] at *
  simp only [List.append_assoc, List.cons_append]
  unfold parseIso
  simp only [read4_pad4 y 0 (by omega), expectChar, eq_self_iff_true, if_true,
    read2_pad2 mo 0 (by omega), read2_pad2 dy 0 hdy, read2_pad2 hh 0 (by omega),
    read2_pad2 mi 0 (by omega), read2_pad2 sec 0 (by omega),
    Nat.zero_mul, Nat.zero_add]
  by_cases hus : us = 0
  · subst hus
    simp only [if_pos rfl, List.append_nil]
    simp [mkChecked]
    exact ⟨w1, w2, w3, w4, w5, w6, w7, w8, w9⟩
  · rw [if_neg hus]
    simp only [fracVal_pad6 us (by omega)]
    simp [mkChecked]
    exact ⟨w1, w2, w3, w4, w5, w6, w7, w8, w9, by omega⟩

theorem pyFromiso_isoformat (d : PyDatetime) (h : d.Wf) :
    pyFromisoformat d.isoformat = .ok d := by
  simp [pyFromisoformat, parseIso_isoformat d h]

def SandboxInfo.Wf (i : SandboxInfo) : Prop := i.created.Wf ∧ i.sandbox_path.Wf

instance (i : SandboxInfo) : Decidable i.Wf := by
  unfold SandboxInfo.Wf
  infer_instance

def SandboxState.Wf (st : SandboxState) : Prop := ∀ p ∈ st.sandboxes, SandboxInfo.Wf p.2

instance (st : SandboxState) : Decidable st.Wf := by
  unfold SandboxState.Wf
  infer_instance

theorem pathFromStr_str (p : PyPath) (h : p.Wf) : pathFromStr p.str = p := by
  obtain ⟨s⟩ := p
  unfold PyPath.Wf at h
  simp only [pathFromStr, PyPath.str] at *
  rw [h]

theorem info_roundtrip (i : SandboxInfo) (h : i.Wf) :
    SandboxInfo.from_dict i.to_dict = .ok i := by
  obtain ⟨hc, hp⟩ := h
  show SandboxInfo.fromFields i.to_dict (.str i.git_url) = .ok i
  simp only [SandboxInfo.fromFields, bind, Except.bind, pure, Except.pure,
    show reqStr i.to_dict (pystr "name") = Except.ok i.name from rfl,
    show reqStr i.to_dict (pystr "created") = Except.ok i.created.isoformat from rfl,
    pyFromiso_isoformat i.created hc,
    show reqStr i.to_dict (pystr "project_name") = Except.ok i.project_name from rfl,
    show reqStr i.to_dict (pystr "branch_name") = Except.ok i.branch_name from rfl,
    show reqStr i.to_dict (pystr "sandbox_path") = Except.ok i.sandbox_path.str from rfl,
    show reqStr i.to_dict (pystr "amplifier_commit") = Except.ok i.amplifier_commit from rfl,
    pathFromStr_str i.sandbox_path hp]

theorem decodeEntries_roundtrip (l : List (PyStr × SandboxInfo))
    (h : ∀ p ∈ l, SandboxInfo.Wf p.2) :
    decodeEntries (l.map (fun p => (p.1, .obj p.2.to_dict))) = .ok l := by
  induction l with
  | nil => rfl
  | cons a t ih =>
    have ha : a.2.Wf := h a (List.mem_cons_self a t)
    have ht : ∀ p ∈ t, SandboxInfo.Wf p.2 := fun p hp => h p (List.mem_cons_of_mem a hp)
    simp [decodeEntries, info_roundtrip a.2 ha, ih ht]

theorem state_roundtrip (st : SandboxState) (h : st.Wf) :
    SandboxState.from_dict st.to_dict = .ok st := by
  simp only [SandboxState.from_dict,
    show jget st.to_dict (pystr "sandboxes")
      = some (.obj (st.sandboxes.map (fun p => (p.1, .obj p.2.to_dict)))) from rfl,
    show jget st.to_dict (pystr "version") = some (.str st.version) from rfl,
    decodeEntries_roundtrip st.sandboxes h]

theorem lexStep_total (x y : Nat) (r s : Bool) (h : (r || s) = true) :
    (lexStep x y r || lexStep y x s) = true := by
  unfold lexStep
  split_ifs <;> simp_all

theorem lexStep_trans (x y z : Nat) (r s t : Bool)
    (h : r = true → s = true → t = true)
    (h1 : lexStep x y r = true) (h2 : lexStep y z s = true) :
    lexStep x z t = true := by
  unfold lexStep at *
  split_ifs at * <;> simp_all <;> omega

theorem leB_total (a b : PyDatetime) : (a.leB b || b.leB a) = true := by
  unfold PyDatetime.leB
  apply lexStep_total
  apply lexStep_total
  apply lexStep_total
  apply lexStep_total
  apply lexStep_total
  apply lexStep_total
  simp
  omega

theorem leB_trans (a b c : PyDatetime)
    (h1 : a.leB b = true) (h2 : b.leB c = true) : a.leB c = true := by
  unfold PyDatetime.leB at *
  revert h1 h2
  apply lexStep_trans
  intro h1 h2
  revert h1 h2
  apply lexStep_trans
  intro h1 h2
  revert h1 h2
  apply lexStep_trans
  intro h1 h2
  revert h1 h2
  apply lexStep_trans
  intro h1 h2
  revert h1 h2
  apply lexStep_trans
  intro h1 h2
  revert h1 h2
  apply lexStep_trans
  intro h1 h2
  simp_all
  omega

theorem insertSorted_perm (le : SandboxInfo → SandboxInfo → Bool) (x : SandboxInfo)
    (l : List SandboxInfo) : (insertSorted le x l).Perm (x :: l) := by
  induction l with
  | nil => rfl
  | cons y ys ih =>
    unfold insertSorted
    split_ifs with hle
    · exact (List.Perm.cons y ih).trans (List.Perm.swap x y ys)
    · rfl

theorem insertSorted_pairwise (le : SandboxInfo → SandboxInfo → Bool)
    (htot : ∀ a b, (le a b || le b a) = true)
    (htr : ∀ a b c, le a b = true → le b c = true → le a c = true)
    (x : SandboxInfo) (l : List SandboxInfo)
    (h : l.Pairwise (fun a b => le a b = true)) :
    (insertSorted le x l).Pairwise (fun a b => le a b = true) := by
  induction l with
  | nil => simp [insertSorted]
  | cons y ys ih =>
    rw [List.pairwise_cons] at h
    unfold insertSorted
    split_ifs with hle
    · rw [List.pairwise_cons]
      constructor
      · intro z hz
        rcases List.mem_cons.mp ((insertSorted_perm le x ys).mem_iff.mp hz) with rfl | hz
        · exact hle
        · exact h.1 z hz
      · exact ih h.2
    · rw [List.pairwise_cons]
      have hxy : le x y = true := by
        have := htot y x
        simp [hle] at this
        exact this
      constructor
      · intro z hz
        rcases List.mem_cons.mp hz with rfl | hz
        · exact hxy
        · exact htr x y z hxy (h.1 z hz)
      · exact List.Pairwise.cons h.1 h.2

theorem sortAux_perm (le : SandboxInfo → SandboxInfo → Bool)
    (l : List SandboxInfo) : ∀ acc, (sortAux le l acc).Perm (l ++ acc) := by
  induction l with
  | nil => intro acc; simp [sortAux]
  | cons x xs ih =>
    intro acc
    unfold sortAux
    refine (ih (insertSorted le x acc)).trans ?_
    have h1 : (xs ++ insertSorted le x acc).Perm (xs ++ (x :: acc)) :=
      List.Perm.append_left xs (insertSorted_perm le x acc)
    have h2 : (xs ++ (x :: acc)).Perm (x :: (xs ++ acc)) := List.perm_middle
    exact h1.trans h2

theorem sortAux_pairwise (le : SandboxInfo → SandboxInfo → Bool)
    (htot : ∀ a b, (le a b || le b a) = true)
    (htr : ∀ a b c, le a b = true → le b c = true → le a c = true)
    (l : List SandboxInfo) :
    ∀ acc, acc.Pairwise (fun a b => le a b = true) →
    (sortAux le l acc).Pairwise (fun a b => le a b = true) := by
  induction l with
  | nil => intro acc h; exact h
  | cons x xs ih =>
    intro acc h
    exact ih (insertSorted le x acc) (insertSorted_pairwise le htot htr x acc h)

theorem pySorted_perm (le : SandboxInfo → SandboxInfo → Bool)
    (l : List SandboxInfo) : (pySorted le l).Perm l := by
  have := sortAux_perm le l []
  simpa [pySorted] using this

theorem pySorted_pairwise (le : SandboxInfo → SandboxInfo → Bool)
    (htot : ∀ a b, (le a b || le b a) = true)
    (htr : ∀ a b c, le a b = true → le b c = true → le a c = true)
    (l : List SandboxInfo) :
    (pySorted le l).Pairwise (fun a b => le a b = true) :=
  sortAux_pairwise le htot htr l [] List.Pairwise.nil

theorem contains_false_not_mem {s : PyStr} {c : Char} (h : s.contains c = false) :
    c ∉ s := by
  simpa using h

theorem rstrip_eq_self (c : Char) (s : PyStr) (h : s.contains c = false) :
    rstripChar c s = s := by
  unfold rstripChar
  rcases hr : s.reverse with _ | ⟨a, t⟩
  · simp_all [List.reverse_eq_nil_iff]
  · have ha : a ∈ s := by
      have : a ∈ s.reverse := by
        rw [hr]
        exact List.mem_cons_self a t
      simpa using this
    have hac : ¬ (a = c) := by
      intro hh
      subst hh
      exact contains_false_not_mem h ha
    rw [List.dropWhile_cons_of_neg (by simpa using hac)]
    rw [← hr, List.reverse_reverse]

theorem projectName_fixed (s : PyStr) (h1 : s.contains '/' = false)
    (h2 : s.contains ':' = false) (h3 : dotGit.isSuffixOf s = false) :
    SandboxConfig.projectName s = s := by
  unfold SandboxConfig.projectName
  simp only [rstrip_eq_self '/' s h1, h3, h1, h2, Bool.false_eq_true, if_false]

theorem pyCharAlnum_dash : pyCharAlnum '-' = false := rfl

theorem pyCharAlnum_underscore : pyCharAlnum '_' = false := rfl

theorem filterAlnum_iff (name : PyStr) :
    pyIsAlnum ((name.filter (fun ch => ch ≠ '-')).filter (fun ch => ch ≠ '_')) = true ↔
      ((∀ ch ∈ name, pyCharAlnum ch = true ∨ ch = '-' ∨ ch = '_') ∧
       (∃ ch ∈ name, pyCharAlnum ch = true)) := by
  simp only [pyIsAlnum, Bool.and_eq_true, Bool.not_eq_true', List.all_eq_true,
    List.mem_filter, decide_eq_true_eq, List.isEmpty_eq_false_iff_exists_mem]
  constructor
  · rintro ⟨⟨x, hx⟩, hall⟩
    obtain ⟨⟨hxn, hxd⟩, hxu⟩ := hx
    constructor
    · intro ch hch
      by_cases hd : ch = '-'
      · exact Or.inr (Or.inl hd)
      · by_cases hu : ch = '_'
        · exact Or.inr (Or.inr hu)
        · exact Or.inl (hall ch ⟨⟨hch, hd⟩, hu⟩)
    · exact ⟨x, hxn, hall x ⟨⟨hxn, hxd⟩, hxu⟩⟩
  · rintro ⟨hall, ⟨ch, hch, hal⟩⟩
    have hchd : ch ≠ '-' := by
      intro hh
      rw [hh, pyCharAlnum_dash] at hal
      exact Bool.false_ne_true hal
    have hchu : ch ≠ '_' := by
      intro hh
      rw [hh, pyCharAlnum_underscore] at hal
      exact Bool.false_ne_true hal
    refine ⟨⟨ch, ⟨hch, hchd⟩, hchu⟩, ?_⟩
    intro x hx
    obtain ⟨⟨hxn, hxd⟩, hxu⟩ := hx
    rcases hall x hxn with h | h | h
    · exact h
    · exact absurd h hxd
    · exact absurd h hxu

theorem validate_ok_iff (c : SandboxConfig) :
    c.validate = .ok () ↔
      (c.name ≠ [] ∧ (∀ ch ∈ c.name, pyCharAlnum ch = true ∨ ch = '-' ∨ ch = '_') ∧
       (∃ ch ∈ c.name, pyCharAlnum ch = true) ∧ c.git_url ≠ []) := by
  unfold SandboxConfig.validate
  split_ifs with h1 h2 h3
  · simp [h1]
  · constructor
    · intro hh
      exact absurd hh (by simp)
    · rintro ⟨hne, hall, hex, hgu⟩
      have hgood := (filterAlnum_iff c.name).mpr ⟨hall, hex⟩
      rw [h2] at hgood
      exact absurd hgood (by simp)
  · constructor
    · intro hh
      exact absurd hh (by simp)
    · rintro ⟨hne, hall, hex, hgu⟩
      exact absurd h3 hgu
  · have hgood := (filterAlnum_iff c.name).mp (by
      rcases hb : pyIsAlnum ((c.name.filter (fun ch => ch ≠ '-')).filter (fun ch => ch ≠ '_')) with _ | _
      · exact absurd hb h2
      · rfl)
    simp only [true_iff, eq_self_iff_true]
    exact ⟨h1, hgood.1, hgood.2, h3⟩

theorem add_sandbox_duplicate (f : StateFile) (saveRes : Except PyStr Unit)
    (info : SandboxInfo) (st : SandboxState)
    (hload : load f = .ok st)
    (hdup : containsKey st.sandboxes info.name = true) :
    add_sandbox f saveRes info =
      (f, .error (.sandboxExistsError
        (pystr "Sandbox '" ++ info.name ++ pystr "' already exists"))) := by
  unfold add_sandbox
  rw [hload]
  simp [hdup]

theorem create_fail37 (c : SandboxConfig) (env : Env) (fs : FS) (st : SandboxState)
    (e : PyErr)
    (hval : c.validate = .ok ())
    (hload : load fs.stateFile = .ok st)
    (hnotin : containsKey st.sandboxes c.name = false)
    (hfail : firstFailure37 c env fs = some e) :
    create_sandbox c env fs = (⟨false, fs.stateFile⟩, .error e) := by
  obtain ⟨dir, sf⟩ := fs
  obtain ⟨now, cr, da, sr, br, mr, dr, vr⟩ := env
  dsimp only at hload hfail
  cases dir <;>
    rcases cr with m1 | commit <;>
    rcases sr with m2 | ⟨⟩ <;>
    rcases br with m3 | ⟨⟩ <;>
    rcases mr with m4 | ⟨⟩ <;>
    rcases dr with e5 | ⟨⟩ <;>
    (try cases da) <;>
    simp_all [create_sandbox, createSteps, sandbox_exists, firstFailure37]

theorem create_step8_fail (c : SandboxConfig) (env : Env) (fs : FS)
    (st : SandboxState) (hsh : PyStr) (m : PyStr)
    (hval : c.validate = .ok ())
    (hload : load fs.stateFile = .ok st)
    (hnotin : containsKey st.sandboxes c.name = false)
    (hdir : fs.sandboxDirExists = false)
    (hclone : env.cloneRes = .ok hsh)
    (hsub : env.submoduleRes = .ok ())
    (hbr : env.branchRes = .ok ())
    (hmk : env.makeRes = .ok ())
    (hmd : env.metadataRes = .ok ())
    (hsave : env.saveRes = .error m) :
    create_sandbox c env fs = (⟨false, fs.stateFile⟩, .error (.stateFileError m)) := by
  obtain ⟨dir, sf⟩ := fs
  obtain ⟨now, cr, da, sr, br, mr, dr, vr⟩ := env
  dsimp only at *
  subst hdir hclone hsub hbr hmk hmd hsave
  simp_all [create_sandbox, createSteps, sandbox_exists, add_sandbox]

/-- Fixture: a creation request (`create add-tags git@github.com:user/my-website.git`). -/
def cfgCex : SandboxConfig :=
  { name := pystr "add-tags",
    git_url := pystr "git@github.com:user/my-website.git",
    amplifier_repo_url := pystr "https://github.com/qhanam/amplifier.git",
    workspace_root := ⟨pystr "/workspace"⟩ }

/-- Fixture: every external step succeeds but the registry save fails. -/
def envSaveFail : Env :=
  { now := ⟨2024, 1, 15, 9, 0, 0, 0⟩, cloneRes := .ok (pystr "abc123"),
    dirAfterFailedClone := false, submoduleRes := .ok (), branchRes := .ok (),
    makeRes := .ok (), metadataRes := .ok (),
    saveRes := .error (pystr "Failed to write state file: disk full") }

/-- Fixture: the clone step fails and leaves no directory behind. -/
def envCloneFail : Env :=
  { now := ⟨2024, 1, 15, 9, 0, 0, 0⟩,
    cloneRes := .error (pystr "Failed to clone Amplifier from https://github.com/qhanam/amplifier.git"),
    dirAfterFailedClone := false, submoduleRes := .ok (), branchRes := .ok (),
    makeRes := .ok (), metadataRes := .ok (), saveRes := .ok () }

/-- Fixture: empty workspace (no registry file, no sandbox directory). -/
def fsEmpty : FS := ⟨false, .missing⟩

/-- C1 counterexample fixture result check is below with the claims. -/
def entryA : SandboxInfo :=
  { name := pystr "A", created := ⟨2024, 1, 15, 9, 0, 0, 0⟩,
    project_name := pystr "proj", git_url := pystr "https://example.com/u/proj.git",
    branch_name := pystr "feature/A",
    sandbox_path := ⟨pystr "/workspace/amplifier-sandbox.A"⟩,
    amplifier_commit := pystr "aaa111" }

/-- Fixture entry created at 11:00. -/
def entryB : SandboxInfo :=
  { name := pystr "B", created := ⟨2024, 1, 15, 11, 0, 0, 0⟩,
    project_name := pystr "proj", git_url := pystr "https://example.com/u/proj.git",
    branch_name := pystr "feature/B",
    sandbox_path := ⟨pystr "/workspace/amplifier-sandbox.B"⟩,
    amplifier_commit := pystr "bbb222" }

/-- Fixture entry created at 10:00. -/
def entryC : SandboxInfo :=
  { name := pystr "C", created := ⟨2024, 1, 15, 10, 0, 0, 0⟩,
    project_name := pystr "proj", git_url := pystr "https://example.com/u/proj.git",
    branch_name := pystr "feature/C",
    sandbox_path := ⟨pystr "/workspace/amplifier-sandbox.C"⟩,
    amplifier_commit := pystr "ccc333" }

/-- The registry file produced by adding the 09:00, 11:00 and 10:00
entries in that insertion order. -/
def fileABC : StateFile :=
  (add_sandbox (add_sandbox (add_sandbox .missing (.ok ()) entryA).1
    (.ok ()) entryB).1 (.ok ()) entryC).1

/-- The registry state `fileABC` holds (insertion order A, B, C). -/
def stABC : SandboxState :=
  ⟨pystr "1.0", [(pystr "A", entryA), (pystr "B", entryB), (pystr "C", entryC)]⟩

/-- C1 (counterexample): with every step up to the metadata write
succeeding and the registry save failing, the run ends with the sandbox
directory deleted (it existed after the clone, and the final state has
it gone), the registry file untouched, and the save failure re-raised —
contradicting the claim that the directory is not deleted on a
registry-commit failure. -/
theorem create_sandbox_registry_commit_failure_deletes_directory_cex :
    (createSteps cfgCex envSaveFail fsEmpty).1.sandboxDirExists = true ∧
    create_sandbox cfgCex envSaveFail fsEmpty =
      (⟨false, .missing⟩,
       .error (.stateFileError (pystr "Failed to write state file: disk full"))) := by
  exact ⟨rfl, rfl⟩

/-- C1 (amended): if the registry-commit step fails after steps 3-7 all
succeeded, the sandbox directory IS recursively deleted (the same
rollback as for steps 3-7), the save failure propagates as a
`StateFileError`, the registry file is unchanged, and the registry
contains no entry for the name. -/
theorem create_sandbox_registry_commit_failure_rollback
    (c : SandboxConfig) (env : Env) (fs : FS) (st : SandboxState)
    (hsh m : PyStr)
    (hval : c.validate = .ok ())
    (hload : load fs.stateFile = .ok st)
    (hnotin : containsKey st.sandboxes c.name = false)
    (hdir : fs.sandboxDirExists = false)
    (hclone : env.cloneRes = .ok hsh)
    (hsub : env.submoduleRes = .ok ())
    (hbr : env.branchRes = .ok ())
    (hmk : env.makeRes = .ok ())
    (hmd : env.metadataRes = .ok ())
    (hsave : env.saveRes = .error m) :
    create_sandbox c env fs = (⟨false, fs.stateFile⟩, .error (.stateFileError m)) ∧
    load fs.stateFile = .ok st ∧ containsKey st.sandboxes c.name = false :=
  ⟨create_step8_fail c env fs st hsh m hval hload hnotin hdir hclone hsub hbr hmk
     hmd hsave, hload, hnotin⟩

/-- C1 (witness): the amended theorem applied to the concrete
save-failure run. -/
theorem create_sandbox_registry_commit_failure_rollback_witness :
    create_sandbox cfgCex envSaveFail fsEmpty =
      (⟨false, fsEmpty.stateFile⟩,
       .error (.stateFileError (pystr "Failed to write state file: disk full"))) ∧
    load fsEmpty.stateFile = .ok SandboxState.empty ∧
    containsKey SandboxState.empty.sandboxes cfgCex.name = false :=
  create_sandbox_registry_commit_failure_rollback cfgCex envSaveFail fsEmpty
    SandboxState.empty (pystr "abc123") (pystr "Failed to write state file: disk full")
    (by rfl) (by rfl) (by rfl) (by rfl) (by rfl) (by rfl) (by rfl) (by rfl)
    (by rfl) (by rfl)

/-- C2 (confirmed): when any of steps 3-7 fails (first failing step's
error `e`), `create_sandbox` ends with the sandbox target directory
absent (recursively deleted if it existed), the registry file unchanged,
the original error re-raised unchanged, and the registry containing no
entry for the attempted name. -/
theorem create_sandbox_steps3to7_failure_rollback
    (c : SandboxConfig) (env : Env) (fs : FS) (st : SandboxState) (e : PyErr)
    (hval : c.validate = .ok ())
    (hload : load fs.stateFile = .ok st)
    (hnotin : containsKey st.sandboxes c.name = false)
    (hfail : firstFailure37 c env fs = some e) :
    create_sandbox c env fs = (⟨false, fs.stateFile⟩, .error e) ∧
    load fs.stateFile = .ok st ∧ containsKey st.sandboxes c.name = false :=
  ⟨create_fail37 c env fs st e hval hload hnotin hfail, hload, hnotin⟩

/-- C2 (witness): the theorem applied to the concrete clone-failure run:
the `GitOperationError` propagates, the directory is gone, the registry
stays empty. -/
theorem create_sandbox_steps3to7_failure_rollback_witness :
    create_sandbox cfgCex envCloneFail fsEmpty =
      (⟨false, fsEmpty.stateFile⟩,
       .error (.gitOperationError
         (pystr "Failed to clone Amplifier from https://github.com/qhanam/amplifier.git"))) ∧
    load fsEmpty.stateFile = .ok SandboxState.empty ∧
    containsKey SandboxState.empty.sandboxes cfgCex.name = false :=
  create_sandbox_steps3to7_failure_rollback cfgCex envCloneFail fsEmpty
    SandboxState.empty
    (.gitOperationError
      (pystr "Failed to clone Amplifier from https://github.com/qhanam/amplifier.git"))
    (by rfl) (by rfl) (by rfl) (by rfl)

/-- C3 (confirmed): `add_sandbox` on a name already present in the
loaded registry fails with `SandboxExistsError`, leaves the registry
file unchanged, and a subsequent `load` returns the same registry. -/
theorem add_sandbox_existing_name_fails_registry_unchanged
    (f : StateFile) (saveRes : Except PyStr Unit) (info : SandboxInfo)
    (st : SandboxState)
    (hload : load f = .ok st)
    (hdup : containsKey st.sandboxes info.name = true) :
    add_sandbox f saveRes info =
      (f, .error (.sandboxExistsError
        (pystr "Sandbox '" ++ info.name ++ pystr "' already exists"))) ∧
    load (add_sandbox f saveRes info).1 = .ok st := by
  have h := add_sandbox_duplicate f saveRes info st hload hdup
  refine ⟨h, ?_⟩
  rw [h]
  exact hload

/-- C3 (witness): the theorem applied to a concrete one-entry registry
and a duplicate name. -/
theorem add_sandbox_existing_name_fails_registry_unchanged_witness :
    add_sandbox (renderState ⟨pystr "1.0", [(pystr "A", entryA)]⟩) (.ok ()) entryA =
      (renderState ⟨pystr "1.0", [(pystr "A", entryA)]⟩,
       .error (.sandboxExistsError
         (pystr "Sandbox '" ++ entryA.name ++ pystr "' already exists"))) ∧
    load (add_sandbox (renderState ⟨pystr "1.0", [(pystr "A", entryA)]⟩)
        (.ok ()) entryA).1 =
      .ok ⟨pystr "1.0", [(pystr "A", entryA)]⟩ :=
  add_sandbox_existing_name_fails_registry_unchanged
    (renderState ⟨pystr "1.0", [(pystr "A", entryA)]⟩) (.ok ()) entryA
    ⟨pystr "1.0", [(pystr "A", entryA)]⟩ (by rfl) (by rfl)

/-- Fixture: a registry file that is not valid JSON, with CPython's
parse-error text. -/
def badJsonFile : StateFile :=
  .malformed (pystr "Expecting value: line 1 column 1 (char 0)")

/-- Fixture: a registry file that is valid JSON but lacks `version`. -/
def noVersionFile : StateFile := .parsed (.obj [(pystr "sandboxes", .obj [])])

/-- C4 (counterexample): the invalid-JSON file and the missing-`version`
file both fail with an exception of the SAME class, `StateFileError` —
the code has no distinct `CorruptStateError`/`InvalidStateFormatError`
kinds, so "two distinct error kinds" is false. -/
theorem load_error_kinds_coincide_cex :
    load badJsonFile =
      .error (.stateFileError
        (pystr "State file is corrupt: Expecting value: line 1 column 1 (char 0)")) ∧
    load noVersionFile =
      .error (.stateFileError (pystr "State file missing 'version' field")) ∧
    PyErr.className
        (.stateFileError
          (pystr "State file is corrupt: Expecting value: line 1 column 1 (char 0)")) =
      PyErr.className
        (.stateFileError (pystr "State file missing 'version' field")) :=
  ⟨rfl, rfl, rfl⟩

/-- Substring-at-the-end lemma for the parse-error message. -/
theorem hasSub_append_self (t s : PyStr) : hasSub s (t ++ s) = true := by
  unfold hasSub
  rw [List.any_eq_true]
  refine ⟨s, ?_, ?_⟩
  · rw [List.mem_tails]
    exact ⟨t, rfl⟩
  · induction s with
    | nil => rfl
    | cons a s ih => simp [List.isPrefixOf, ih]

/-- C4 (amended): both bad-file shapes fail with the same exception
class `StateFileError`, distinguished only by message: a file that is
not valid JSON fails with `"State file is corrupt: <parse error>"`
(carrying the parse error as a substring), and a valid-JSON file missing
the top-level `version` key fails with a message mentioning the missing
field. -/
theorem load_bad_file_stateFileError_messages
    (e : PyStr) (kvs : List (PyStr × JValue))
    (hmiss : jget kvs (pystr "version") = none) :
    (load (.malformed e) =
       .error (.stateFileError (pystr "State file is corrupt: " ++ e)) ∧
     hasSub e (pystr "State file is corrupt: " ++ e) = true) ∧
    (load (.parsed (.obj kvs)) =
       .error (.stateFileError (pystr "State file missing 'version' field")) ∧
     hasSub (pystr "version") (pystr "State file missing 'version' field") = true) := by
  refine ⟨⟨rfl, hasSub_append_self _ e⟩, ⟨?_, by decide⟩⟩
  simp [load, validateState, hmiss]

/-- C4 (witness): the amended theorem applied to the two concrete bad
files. -/
theorem load_bad_file_stateFileError_messages_witness :
    (load (.malformed (pystr "Expecting value: line 1 column 1 (char 0)")) =
       .error (.stateFileError (pystr "State file is corrupt: " ++
         pystr "Expecting value: line 1 column 1 (char 0)")) ∧
     hasSub (pystr "Expecting value: line 1 column 1 (char 0)")
       (pystr "State file is corrupt: " ++
         pystr "Expecting value: line 1 column 1 (char 0)") = true) ∧
    (load (.parsed (.obj [(pystr "sandboxes", .obj [])])) =
       .error (.stateFileError (pystr "State file missing 'version' field")) ∧
     hasSub (pystr "version") (pystr "State file missing 'version' field") = true) :=
  load_bad_file_stateFileError_messages
    (pystr "Expecting value: line 1 column 1 (char 0)")
    [(pystr "sandboxes", .obj [])] (by rfl)

/-- Fixture: a configuration whose name consists solely of hyphens. -/
def cfgHyphens : SandboxConfig :=
  { name := pystr "---", git_url := pystr "https://github.com/user/repo.git",
    amplifier_repo_url := pystr "https://github.com/qhanam/amplifier.git",
    workspace_root := ⟨pystr "/workspace"⟩ }

/-- C5 (counterexample): the name `"---"` is nonempty, every character
is in the allowed set (hyphen), and the URL is nonempty — so per the
claim `validate` should succeed — yet the code rejects it, because
stripping hyphens and underscores leaves the empty string and
`"".isalnum()` is false. -/
theorem validate_all_hyphen_name_cex :
    cfgHyphens.name ≠ [] ∧
    (∀ ch ∈ cfgHyphens.name, pyCharAlnum ch = true ∨ ch = '-' ∨ ch = '_') ∧
    cfgHyphens.git_url ≠ [] ∧
    cfgHyphens.validate = .error (.valueError
      (pystr "Sandbox name must contain only alphanumeric characters, hyphens, and underscores")) :=
  ⟨by decide, by decide, by decide, by rfl⟩

/-- C5 (amended): `validate` succeeds exactly when the name is nonempty,
every character of the name is a letter, digit, hyphen or underscore,
the name contains at least one letter or digit (so a name of hyphens and
underscores alone is rejected), and the source URL is nonempty; every
failure raises the same exception class (`ValueError`, the code's
realization of the spec's ConfigurationError).  `validate` is a pure
function of the configuration (its model type shows it touches neither
the filesystem nor the registry). -/
theorem validate_fails_iff_amended (c : SandboxConfig) :
    (c.validate = .ok () ↔
      (c.name ≠ [] ∧ (∀ ch ∈ c.name, pyCharAlnum ch = true ∨ ch = '-' ∨ ch = '_') ∧
       (∃ ch ∈ c.name, pyCharAlnum ch = true) ∧ c.git_url ≠ [])) ∧
    (c.validate = .ok () ∨ ∃ m, c.validate = .error (.valueError m)) := by
  refine ⟨validate_ok_iff c, ?_⟩
  unfold SandboxConfig.validate
  split_ifs <;> simp

/-- C6 (confirmed): for every `SandboxInfo` (well-formed: a real
datetime and a normalized path, as every CPython value is) and every
registry with zero or more entries, serializing to the flat dictionary
form and deserializing back reproduces every field exactly, including
the timestamp and the path string, and the registry's version. -/
theorem serialization_roundtrip (i : SandboxInfo) (st : SandboxState)
    (hi : i.Wf) (hst : st.Wf) :
    SandboxInfo.from_dict i.to_dict = .ok i ∧
    SandboxState.from_dict st.to_dict = .ok st :=
  ⟨info_roundtrip i hi, state_roundtrip st hst⟩

/-- Fixture: a record with a microsecond-carrying timestamp. -/
def entryMicro : SandboxInfo :=
  { name := pystr "add-tags", created := ⟨2024, 2, 29, 23, 59, 5, 123456⟩,
    project_name := pystr "my-website",
    git_url := pystr "git@github.com:user/my-website.git",
    branch_name := pystr "feature/add-tags",
    sandbox_path := ⟨pystr "/workspace/amplifier-sandbox.add-tags"⟩,
    amplifier_commit := pystr "abc123def456" }

/-- C6 (witness): the round trip on a concrete record (with a nonzero
microsecond) and a concrete two-entry registry. -/
theorem serialization_roundtrip_witness :
    SandboxInfo.from_dict entryMicro.to_dict = .ok entryMicro ∧
    SandboxState.from_dict
        (SandboxState.to_dict ⟨pystr "1.0", [(pystr "add-tags", entryMicro), (pystr "B", entryB)]⟩) =
      .ok ⟨pystr "1.0", [(pystr "add-tags", entryMicro), (pystr "B", entryB)]⟩ :=
  serialization_roundtrip entryMicro
    ⟨pystr "1.0", [(pystr "add-tags", entryMicro), (pystr "B", entryB)]⟩
    (by decide) (by decide)

/-- C7 (counterexample): extraction is not idempotent
(`a.git.git` maps to `a.git`, which maps on a second application to
`a`), and a string with no `/` and no `:` is not always returned
unchanged (`foo.git` maps to `foo`). -/
theorem projectName_not_idempotent_cex :
    SandboxConfig.projectName (SandboxConfig.projectName (pystr "a.git.git")) ≠
      SandboxConfig.projectName (pystr "a.git.git") ∧
    ((pystr "foo.git").contains '/' = false ∧
     (pystr "foo.git").contains ':' = false ∧
     SandboxConfig.projectName (pystr "foo.git") ≠ pystr "foo.git") :=
  ⟨by decide, by decide, by decide, by decide⟩

/-- C7 (amended): extraction maps the three listed URL forms to `repo`
and is idempotent on them; a string containing no `/`, no `:` and not
ending in `.git` is returned unchanged (idempotence and the unchanged
fall-through fail without the `.git` proviso, see the counterexample). -/
theorem projectName_extraction_amended :
    (SandboxConfig.projectName (pystr "git@github.com:user/repo.git") = pystr "repo" ∧
     SandboxConfig.projectName (pystr "https://github.com/user/repo.git") = pystr "repo" ∧
     SandboxConfig.projectName (pystr "https://github.com/user/repo") = pystr "repo" ∧
     SandboxConfig.projectName
       (SandboxConfig.projectName (pystr "git@github.com:user/repo.git")) = pystr "repo") ∧
    (∀ s : PyStr, s.contains '/' = false → s.contains ':' = false →
      dotGit.isSuffixOf s = false → SandboxConfig.projectName s = s) :=
  ⟨⟨by decide, by decide, by decide, by decide⟩,
   fun s h1 h2 h3 => projectName_fixed s h1 h2 h3⟩

/-- C7 (witness): the universally quantified part applied to the
concrete extraction output `repo`. -/
theorem projectName_extraction_amended_witness :
    SandboxConfig.projectName (pystr "repo") = pystr "repo" :=
  projectName_extraction_amended.2 (pystr "repo") (by decide) (by decide) (by decide)

/-- C8 (confirmed): for every loadable registry, `list_sandboxes`
returns a list that is sorted by ascending creation time and is a
permutation of all stored entries; and on the concrete registry built by
inserting entries created at 09:00, 11:00, 10:00 in that order, the
returned order is 09:00, 10:00, 11:00. -/
theorem list_sandboxes_sorted_by_created :
    (∀ (f : StateFile) (st : SandboxState), load f = .ok st →
      ∃ l, list_sandboxes f = .ok l ∧
        l.Pairwise (fun a b => createdLe a b = true) ∧
        l.Perm (st.sandboxes.map Prod.snd)) ∧
    list_sandboxes fileABC = .ok [entryA, entryC, entryB] := by
  constructor
  · intro f st hload
    refine ⟨pySorted createdLe (st.sandboxes.map Prod.snd), ?_, ?_, ?_⟩
    · unfold list_sandboxes
      rw [hload]
    · exact pySorted_pairwise createdLe
        (fun a b => leB_total a.created b.created)
        (fun a b c h1 h2 => leB_trans a.created b.created c.created h1 h2) _
    · exact pySorted_perm _ _
  · rfl

/-- C8 (witness): the quantified part applied to the concrete
A-B-C-insertion registry. -/
theorem list_sandboxes_sorted_by_created_witness :
    ∃ l, list_sandboxes fileABC = .ok l ∧
      l.Pairwise (fun a b => createdLe a b = true) ∧
      l.Perm (stABC.sandboxes.map Prod.snd) :=
  list_sandboxes_sorted_by_created.1 fileABC stABC (by rfl)

/-- C9 (confirmed): a serialized record lacking `git_url` (absent or
JSON `null`) but carrying a legacy string-valued `project_path`
deserializes successfully, with the legacy value used verbatim as the
URL (no re-validation), the other fields decoding as usual. -/
theorem from_dict_legacy_project_path_fallback
    (data : List (PyStr × JValue)) (p n cs pn bn sp ac : PyStr) (dt : PyDatetime)
    (hgit : getOrNone data (pystr "git_url") = none)
    (hpp : getOrNone data (pystr "project_path") = some (.str p))
    (hn : jget data (pystr "name") = some (.str n))
    (hcs : jget data (pystr "created") = some (.str cs))
    (hdt : pyFromisoformat cs = .ok dt)
    (hpn : jget data (pystr "project_name") = some (.str pn))
    (hbn : jget data (pystr "branch_name") = some (.str bn))
    (hsp : jget data (pystr "sandbox_path") = some (.str sp))
    (hac : jget data (pystr "amplifier_commit") = some (.str ac)) :
    SandboxInfo.from_dict data = .ok ⟨n, dt, pn, p, bn, pathFromStr sp, ac⟩ := by
  unfold SandboxInfo.from_dict
  rw [hgit, hpp]
  simp only [SandboxInfo.fromFields, pyStrOf, bind, Except.bind, pure, Except.pure,
    reqStr, hn, hcs, hdt, hpn, hbn, hsp, hac]

/-- Fixture: a legacy serialized record (no `git_url`, filesystem-path
`project_path`). -/
def legacyRecord : List (PyStr × JValue) :=
  [(pystr "name", .str (pystr "old-feature")),
   (pystr "created", .str (pystr "2023-05-01T12:00:00")),
   (pystr "project_name", .str (pystr "proj")),
   (pystr "project_path", .str (pystr "/home/user/proj")),
   (pystr "branch_name", .str (pystr "feature/old-feature")),
   (pystr "sandbox_path", .str (pystr "/workspace/amplifier-sandbox.old-feature")),
   (pystr "amplifier_commit", .str (pystr "beefcafe"))]

/-- C9 (witness): the theorem applied to the concrete legacy record; the
resulting `git_url` is the filesystem path, as-is. -/
theorem from_dict_legacy_project_path_fallback_witness :
    SandboxInfo.from_dict legacyRecord =
      .ok ⟨pystr "old-feature", ⟨2023, 5, 1, 12, 0, 0, 0⟩, pystr "proj",
           pystr "/home/user/proj", pystr "feature/old-feature",
           pathFromStr (pystr "/workspace/amplifier-sandbox.old-feature"),
           pystr "beefcafe"⟩ :=
  from_dict_legacy_project_path_fallback legacyRecord
    (pystr "/home/user/proj") (pystr "old-feature")
    (pystr "2023-05-01T12:00:00") (pystr "proj") (pystr "feature/old-feature")
    (pystr "/workspace/amplifier-sandbox.old-feature") (pystr "beefcafe")
    ⟨2023, 5, 1, 12, 0, 0, 0⟩
    (by rfl) (by rfl) (by rfl) (by rfl) (by rfl) (by rfl) (by rfl) (by rfl) (by rfl)

/-- C10 (confirmed): a serialized record lacking both `git_url` and the
legacy `project_path` (each absent or JSON `null`) fails to deserialize
with a `ValueError` whose message names both missing fields; no record
with a defaulted URL is produced. -/
theorem from_dict_missing_both_url_fields_error
    (data : List (PyStr × JValue))
    (hgit : getOrNone data (pystr "git_url") = none)
    (hpp : getOrNone data (pystr "project_path") = none) :
    SandboxInfo.from_dict data =
      .error (.valueError
        (pystr "State file missing both 'git_url' and 'project_path' fields")) ∧
    hasSub (pystr "git_url")
      (pystr "State file missing both 'git_url' and 'project_path' fields") = true ∧
    hasSub (pystr "project_path")
      (pystr "State file missing both 'git_url' and 'project_path' fields") = true := by
  refine ⟨?_, by decide, by decide⟩
  unfold SandboxInfo.from_dict
  rw [hgit, hpp]

/-- C10 (witness): the theorem applied to a concrete record carrying
every field except the two URL fields. -/
theorem from_dict_missing_both_url_fields_error_witness :
    SandboxInfo.from_dict
        [(pystr "name", .str (pystr "x")),
         (pystr "created", .str (pystr "2023-05-01T12:00:00"))] =
      .error (.valueError
        (pystr "State file missing both 'git_url' and 'project_path' fields")) ∧
    hasSub (pystr "git_url")
      (pystr "State file missing both 'git_url' and 'project_path' fields") = true ∧
    hasSub (pystr "project_path")
      (pystr "State file missing both 'git_url' and 'project_path' fields") = true :=
  from_dict_missing_both_url_fields_error
    [(pystr "name", .str (pystr "x")),
     (pystr "created", .str (pystr "2023-05-01T12:00:00"))]
    (by rfl) (by rfl)
